import Mathlib

/-!
Verification of the NeuralAnalytics core pipeline.

Shallow embedding of the Rust sources under
`packages/neural_analytics_core/src`.  Pure functions of the source are
translated as Lean functions; the stateful state-machine entry actions are
translated as explicit step functions from their inputs (command results,
context fields) to their outputs (next state, emitted events, bulb
commands).  `f32` arithmetic is modelled over `ℚ`; the `f32` square root,
which has no exact counterpart on `ℚ`, is passed as an explicit function
parameter (the properties proved do not depend on its values).  Rust
`HashMap<String, _>` values are modelled as association lists or lookup
functions as noted at each definition.
-/

namespace NeuralAnalytics

/-! ## Data model (`domain/models`) -/

/-- `WorkMode` from `domain/models/eeg_work_modes.rs`. -/
inductive WorkMode where
  | Initialized
  | Calibration
  | Extraction
deriving DecidableEq, Repr

/-- `BulbState` from `domain/models/bulb_state.rs`.  The file itself is one
of the repository files absent from the snapshot; the two variants are the
ones used throughout the sources (`BulbState::BulbOn`, `BulbState::BulbOff`). -/
inductive BulbState where
  | BulbOn
  | BulbOff
deriving DecidableEq, Repr

/-- An impedance sample: `HashMap<String, u16>` modelled as an association
list from electrode names to values in kΩ. -/
abbrev ImpedanceData : Type := List (String × Nat)

/-- A signal window: `HashMap<String, Vec<f32>>` modelled as an association
list from channel names to sample sequences over `ℚ`. -/
abbrev SignalData : Type := List (String × List ℚ)

/-! ## Shared context and its event writer (`domain/context/mod.rs`) -/

/-- The mutable data fields of `NeuralAnalyticsContext`
(`domain/context/mod.rs`, struct at lines 59–71). -/
structure Ctx where
  headset_data : Option SignalData
  color_thinking : Option String
  impedance_data : Option ImpedanceData
deriving DecidableEq

/-- The data fields of `NeuralAnalyticsContext::default()`: all `None`. -/
def Ctx.default : Ctx :=
  { headset_data := none, color_thinking := none, impedance_data := none }

/-- The internal events a use-case handler can return
(`domain/models/event_internals.rs`), plus a case for any other
(unrecognised) event name, on which the writer is a no-op. -/
inductive InternalEvent where
  | receivedCalibrationData (impedance_data : ImpedanceData)
  | receivedGeneralistData (headset_data : SignalData)
  | receivedPredictColorThinkingData (color_thinking : String)
  | otherEvent (name : String)

/-- The `EventWriter::write` implementation for `NeuralAnalyticsContext`
(`domain/context/mod.rs`, lines 105–136): the dispatcher's post-handler
hook that applies each returned event to the context fields. -/
def writeEvent (ctx : Ctx) (e : InternalEvent) : Ctx :=
  match e with
  | .receivedCalibrationData imp =>
      { headset_data := none, color_thinking := none, impedance_data := some imp }
  | .receivedGeneralistData sig =>
      { ctx with headset_data := some sig, impedance_data := none }
  | .receivedPredictColorThinkingData c =>
      { ctx with color_thinking := some c, impedance_data := none }
  | .otherEvent _ => ctx

/-- Invariant I1: the signal and impedance fields are mutually exclusive. -/
def mutualExclusion (ctx : Ctx) : Prop :=
  (ctx.impedance_data.isSome → ctx.headset_data = none) ∧
  (ctx.headset_data.isSome → ctx.impedance_data = none)

instance (ctx : Ctx) : Decidable (mutualExclusion ctx) := by
  unfold mutualExclusion; infer_instance

/-! ## Prediction buffer and consensus

Modelled from the spec: the prediction buffer and the
`get_color_thinking` consensus getter of `NeuralAnalyticsContext` are
called by `state_machine.rs` (line 317) and by the use-case tests, but the
context variant defining them is missing from the snapshot (the variant
present holds only `color_thinking : Option<String>`).  Definitions follow
the spec: capacity `B = 6`, append at tail dropping the head when full,
effective label is the unanimous label of a non-empty buffer and
`"unknown"` otherwise. -/

/-- Modelled from the spec: the prediction-buffer capacity `B = 6`. -/
def BUFFER_CAPACITY : Nat := 6

/-- Modelled from the spec: insertion into the prediction buffer — append
at tail; if full, drop the head before appending. -/
def pushPrediction (label : String) (buf : List String) : List String :=
  (if BUFFER_CAPACITY ≤ buf.length then buf.drop 1 else buf) ++ [label]

/-- Pushing a whole sequence of labels, oldest first. -/
def pushPredictions (labels : List String) (buf : List String) : List String :=
  labels.foldl (fun b l => pushPrediction l b) buf

/-- Modelled from the spec: the consensus (effective) label of the
prediction buffer — its single label iff every element is equal and the
buffer is non-empty, otherwise `"unknown"`. -/
def effectiveLabel (buf : List String) : String :=
  match buf with
  | [] => "unknown"
  | x :: rest => if rest.all (fun y => y == x) then x else "unknown"

/-! ## Calibration-read status logging
(`domain/use_cases/extract_calibration_use_case.rs`, `process_impedance_data`,
lines 70–83) -/

/-- The per-electrode status string computed by `process_impedance_data`
for an impedance value in kΩ. -/
def electrodeStatus (v : Nat) : String :=
  if v > 2 then "ERROR: Poor connection"
  else if v ≥ 1 && v ≤ 2 then "WARNING: Acceptable connection"
  else "OK: Good connection"

/-! ## Model inference service
(`domain/services/model_inference_service.rs`, `preprocess_data`,
lines 106–186).  The EEG data `HashMap<String, Vec<f32>>` is modelled as a
lookup function `String → Option (List ℚ)`; `fsqrt` stands for the `f32`
square root used for the standard deviation. -/

/-- The `required_channels` array of `preprocess_data`. -/
def requiredChannels : List String := ["T3", "T4", "O1", "O2"]

/-- The number of temporal samples the model expects (`expected_samples`). -/
def EXPECTED_SAMPLES : Nat := 62

/-- The per-channel normalization loop of `preprocess_data`: subtract the
mean and divide by the standard deviation plus `1e-6`. -/
def normalizeChannel (fsqrt : ℚ → ℚ) (xs : List ℚ) : List ℚ :=
  let mean : ℚ := xs.sum / (xs.length : ℚ)
  let variance : ℚ := ((xs.map (fun x => (x - mean) ^ 2)).sum) / (xs.length : ℚ)
  let std_dev : ℚ := fsqrt variance
  xs.map (fun x => (x - mean) / (std_dev + 1 / 1000000))

/-- The resize step of `preprocess_data`: pad with the last value
(`resize`) when shorter than 62, keep the first 62 (`truncate`) when
longer. -/
def resizeChannel (xs : List ℚ) : List ℚ :=
  if xs.length < EXPECTED_SAMPLES then
    xs ++ List.replicate (EXPECTED_SAMPLES - xs.length) (xs.getLast?.getD 0)
  else
    xs.take EXPECTED_SAMPLES

/-- The presence check of `preprocess_data`: every required channel must
be a key of the EEG data map. -/
def checkChannels (eeg : String → Option (List ℚ)) : List String → Except String Unit
  | [] => .ok ()
  | c :: rest =>
    match eeg c with
    | none => .error ("Required channel " ++ c ++ " not found in EEG data")
    | some _ => checkChannels eeg rest

/-- The per-channel processing loop of `preprocess_data`: reject empty
channels, normalize, then resize to 62 samples.  The `none` case is
unreachable after `checkChannels` (the Rust code unwraps there). -/
def processChannels (fsqrt : ℚ → ℚ) (eeg : String → Option (List ℚ)) :
    List String → Except String (List (List ℚ))
  | [] => .ok []
  | c :: rest =>
    match eeg c with
    | none => .error "BUG: channel missing after presence check"
    | some xs =>
      if xs.isEmpty then .error ("Channel " ++ c ++ " has no data")
      else
        match processChannels fsqrt eeg rest with
        | .error e => .error e
        | .ok tail => .ok (resizeChannel (normalizeChannel fsqrt xs) :: tail)

/-- The final interleaving loop of `preprocess_data`: for each time index,
the values of all channels at that index, time-major. -/
def interleaveChannels (chans : List (List ℚ)) : List ℚ :=
  (List.range EXPECTED_SAMPLES).flatMap (fun i => chans.map (fun ch => ch.getD i 0))

/-- `ModelInferenceService::preprocess_data`
(`domain/services/model_inference_service.rs`, lines 106–186). -/
def preprocess_data (fsqrt : ℚ → ℚ) (eeg : String → Option (List ℚ)) :
    Except String (List ℚ) :=
  match checkChannels eeg requiredChannels with
  | .error e => .error e
  | .ok _ =>
    match processChannels fsqrt eeg requiredChannels with
    | .error e => .error e
    | .ok chans => .ok (interleaveChannels chans)

/-! ## BrainFlow adapter mode switch
(`infrastructure/adapters/input/brainbit_headset.rs`,
`change_work_mode`, lines 268–311).  `_send_board_command` is modelled by
an oracle `exec : String → Bool` giving the success of each board
command; the function returns the new mode together with the list of
board commands sent. -/

/-- The stop command for the current mode (lines 281–285). -/
def stopCommand : WorkMode → String
  | .Calibration => "CommandStopSignal"
  | .Extraction => "CommandStopResist"
  | .Initialized => "CommandStopSignal"

/-- The start command for the new mode (lines 294–298). -/
def startCommand : WorkMode → String
  | .Calibration => "CommandStartResist"
  | .Extraction => "CommandStartSignal"
  | .Initialized => "CommandStartSignal"

/-- `BrainFlowAdapter::change_work_mode`: no-op when already in the target
mode; otherwise stop the current mode (aborting on failure) then start the
new one (keeping the old mode on failure). -/
def change_work_mode (exec : String → Bool) (mode new_mode : WorkMode) :
    WorkMode × List String :=
  if mode = new_mode then (mode, [])
  else
    let stopCmd := stopCommand mode
    if exec stopCmd then
      let startCmd := startCommand new_mode
      if exec startCmd then (new_mode, [stopCmd, startCmd])
      else (mode, [stopCmd, startCmd])
    else (mode, [stopCmd])

/-- `MockHeadsetAdapter::change_work_mode`
(`infrastructure/adapters/input/mock_headset.rs`, lines 137–145):
early-return when already in the target mode, otherwise set it. -/
def mock_change_work_mode (mode new_mode : WorkMode) : WorkMode :=
  if mode = new_mode then mode else new_mode

/-! ## Tapo smart-bulb adapter
(`infrastructure/adapters/output/tapo_smartbulb.rs`). -/

/-- The configuration fields of `TapoSmartBulbAdapter::default()`:
environment variables with the dummy placeholder substituted when
absent. -/
structure TapoConfig where
  ip_address : String
  username : String
  password : String
deriving DecidableEq

/-- The environment-variable resolution in
`TapoSmartBulbAdapter::default()` (lines 30–43). -/
def tapoConfigFromEnv (envIp envUser envPass : Option String) : TapoConfig :=
  { ip_address := envIp.getD "127.0.0.1"
  , username := envUser.getD "test_user"
  , password := envPass.getD "test_password" }

/-- `TapoSmartBulbAdapter::change_state` (lines 102–147).  The background
connection outcome is the `client` argument (`none` while the background
connect task has not completed or has failed); a connected handler is a
function from the requested state to the vendor-call result. -/
def tapo_change_state (ip_address : String)
    (client : Option (BulbState → Except String Unit)) (state : BulbState) :
    Except String Unit :=
  if ip_address = "127.0.0.1" then .ok ()
  else
    match client with
    | none =>
        .error ("Cannot change state for Tapo device " ++ ip_address ++
          ": Not connected yet or connection failed.")
    | some handler =>
        match handler state with
        | .ok _ => .ok ()
        | .error e =>
            .error ("Failed to change Tapo bulb state for device " ++
              ip_address ++ ": " ++ e)

/-! ## State machine (`domain/state_machine/state_machine.rs`)

Each `#[state]` entry action is translated as a step function from the
results of the commands it executes and the context fields it reads to
the next state, the externally emitted events, and the bulb commands
issued.  `send_event` failures only log for the emissions modelled here
and do not change control flow, so an emission is recorded regardless of
the sink's result. -/

/-- The four states of `MainStateMachine`. -/
inductive SMState where
  | initializeApplication
  | awaitingHeadsetConnection
  | awaitingHeadsetCalibration
  | capturingHeadsetData
deriving DecidableEq, Repr

/-- The externally visible events (names as in `domain/events`). -/
inductive EmittedEvent where
  | initializedCore
  | headsetConnected
  | headsetDisconnected
  | headsetCalibrating (impedance_data : ImpedanceData)
  | headsetCalibrated
  | capturedHeadsetData (headset_data : SignalData) (color_thinking : String)
deriving DecidableEq

/-- `data.values().any(|&value| value > 1000 || value < 1)` from
`awaiting_headset_calibration` (line 214). -/
def needsMoreCalibration (data : ImpedanceData) : Bool :=
  data.any (fun kv => kv.2 > 1000 || kv.2 < 1)

/-- The `awaiting_headset_calibration` entry action
(`state_machine.rs`, lines 179–240), as a function of the
`ExtractCalibrationDataCommand` result and of the `impedance_data`
context field read after it. -/
def awaiting_headset_calibration (calibration_result : Except String Unit)
    (impedance_data : Option ImpedanceData) : SMState × List EmittedEvent :=
  match calibration_result with
  | .error _ => (.awaitingHeadsetConnection, [.headsetDisconnected])
  | .ok _ =>
    match impedance_data with
    | some data =>
      if needsMoreCalibration data then
        (.awaitingHeadsetCalibration, [.headsetCalibrating data])
      else
        (.capturingHeadsetData, [.headsetCalibrated])
    | none => (.capturingHeadsetData, [.headsetCalibrated])

/-- Whether `needle` is an initial segment of `haystack`. -/
def charsStartWith : (needle haystack : List Char) → Bool
  | [], _ => true
  | _ :: _, [] => false
  | a :: as, b :: bs => a == b && charsStartWith as bs

/-- Whether `needle` occurs contiguously inside `haystack`. -/
def charsContain (needle : List Char) : (haystack : List Char) → Bool
  | [] => needle.isEmpty
  | b :: bs => charsStartWith needle (b :: bs) || charsContain needle bs

/-- Substring containment, modelling Rust `str::contains` on the
prediction error message (`state_machine.rs`, line 303). -/
def containsSubstr (needle haystack : String) : Bool :=
  charsContain needle.toList haystack.toList

/-- The outcome of one `capturing_headset_data` entry action. -/
structure CaptureOutcome where
  next : SMState
  emitted : List EmittedEvent
  bulbCalls : List BulbState
deriving DecidableEq

/-- The `capturing_headset_data` entry action
(`state_machine.rs`, lines 253–364), as a function of the
`ExtractGeneralistDataCommand` result, the `headset_data` context field
read after it (`unwrap_or_default`), the `PredictColorThinkingCommand`
result, and the `get_color_thinking()` value read after a successful
prediction.  `bulbCalls` lists the `change_state` calls issued through
`update_light_status_use_case`
(`domain/use_cases/update_light_status_use_case.rs`, lines 22–56), whose
errors are logged without changing the control flow. -/
def capturing_headset_data (extract_result : Except String Unit)
    (raw_data : SignalData) (prediction_result : Except String Unit)
    (color_prediction : String) : CaptureOutcome :=
  match extract_result with
  | .error _ =>
      { next := .awaitingHeadsetConnection
      , emitted := [.headsetDisconnected]
      , bulbCalls := [] }
  | .ok _ =>
    match prediction_result with
    | .error e =>
      if containsSubstr "has no data" e then
        { next := .awaitingHeadsetConnection
        , emitted := [.headsetDisconnected]
        , bulbCalls := [] }
      else
        { next := .capturingHeadsetData, emitted := [], bulbCalls := [] }
    | .ok _ =>
        { next := .capturingHeadsetData
        , emitted := [.capturedHeadsetData raw_data color_prediction]
        , bulbCalls :=
            if color_prediction.isEmpty then []
            else [if color_prediction = "green" then .BulbOn else .BulbOff] }

/-! ## Helper lemmas -/

/-- One push keeps the buffer within capacity. -/
theorem pushPrediction_length_le (x : String) (buf : List String)
    (h : buf.length ≤ 6) : (pushPrediction x buf).length ≤ 6 := by
  unfold pushPrediction BUFFER_CAPACITY
  split <;> simp <;> omega

/-- Closed form for pushing a sequence of labels into a buffer within
capacity: the result is the suffix of `buf ++ ls` that fits. -/
theorem pushPredictions_eq_drop :
    ∀ (ls buf : List String), buf.length ≤ 6 →
      pushPredictions ls buf = (buf ++ ls).drop (buf.length + ls.length - 6)
  | [], buf, h => by
      simp [pushPredictions, Nat.sub_eq_zero_of_le h]
  | l :: ls, buf, h => by
      have hstep : pushPredictions (l :: ls) buf = pushPredictions ls (pushPrediction l buf) := by
        simp [pushPredictions, List.foldl_cons]
      rw [hstep, pushPredictions_eq_drop ls _ (pushPrediction_length_le l buf h)]
      unfold pushPrediction BUFFER_CAPACITY
      by_cases hfull : 6 ≤ buf.length
      · have hlen : buf.length = 6 := by omega
        rw [if_pos hfull]
        have h1 : buf.drop 1 ++ [l] ++ ls = (buf ++ l :: ls).drop 1 := by
          rw [List.drop_append_eq_append_drop]
          simp [hlen]
        rw [h1, List.drop_drop]
        congr 1
        simp [hlen]
        omega
      · rw [if_neg hfull]
        have h1 : buf ++ [l] ++ ls = buf ++ l :: ls := by simp
        have h2 : (buf ++ [l]).length + ls.length - 6 =
            buf.length + (l :: ls).length - 6 := by
          simp
          omega
        rw [h1, h2]

/-- Resizing always yields exactly 62 samples. -/
theorem resizeChannel_length (xs : List ℚ) : (resizeChannel xs).length = 62 := by
  unfold resizeChannel EXPECTED_SAMPLES
  split <;> simp <;> omega

/-- Indexing a concatenation of constant-length blocks. -/
theorem flatMap_blocks_getElem {α : Type} (f : ℕ → List α) (k : ℕ)
    (hk : ∀ i, (f i).length = k) :
    ∀ (l : List ℕ) (t j : ℕ), t < l.length → j < k →
      (l.flatMap f)[k * t + j]? = (f (l.getD t 0))[j]?
  | [], t, j, ht, _ => by simp at ht
  | a :: l, 0, j, _, hj => by
      simp only [List.flatMap_cons, Nat.mul_zero, Nat.zero_add, List.getD_cons_zero]
      rw [List.getElem?_append_left (by rw [hk a]; exact hj)]
  | a :: l, t + 1, j, ht, hj => by
      simp only [List.flatMap_cons, List.getD_cons_succ]
      rw [List.getElem?_append_right (by rw [hk a, Nat.mul_succ]; omega)]
      have harith : k * (t + 1) + j - (f a).length = k * t + j := by
        rw [hk a, Nat.mul_succ]
        omega
      rw [harith]
      exact flatMap_blocks_getElem f k hk l t j (by simpa using ht) hj

/-- The length of a concatenation of constant-length blocks. -/
theorem flatMap_blocks_length {α : Type} (f : ℕ → List α) (k : ℕ)
    (hk : ∀ i, (f i).length = k) (l : List ℕ) :
    (l.flatMap f).length = l.length * k := by
  induction l with
  | nil => simp
  | cons a l ih => simp [List.flatMap_cons, ih, hk a, Nat.succ_mul, Nat.add_comm]

/-- The calibration retry condition, as a proposition. -/
theorem needsMoreCalibration_eq_true_iff (data : ImpedanceData) :
    needsMoreCalibration data = true ↔ ∃ kv ∈ data, 1000 < kv.2 ∨ kv.2 < 1 := by
  simp [needsMoreCalibration, List.any_eq_true]

/-- The calibration acceptance condition, as a proposition. -/
theorem needsMoreCalibration_eq_false_iff (data : ImpedanceData) :
    needsMoreCalibration data = false ↔ ∀ kv ∈ data, 1 ≤ kv.2 ∧ kv.2 ≤ 1000 := by
  constructor
  · intro h kv hkv
    have hne : ¬ needsMoreCalibration data = true := by simp [h]
    rw [needsMoreCalibration_eq_true_iff] at hne
    push_neg at hne
    have := hne kv hkv
    omega
  · intro h
    by_contra hne
    have ht : needsMoreCalibration data = true := by
      cases hb : needsMoreCalibration data
      · exact absurd hb hne
      · rfl
    obtain ⟨kv, hkv, hbad⟩ := (needsMoreCalibration_eq_true_iff data).mp ht
    have := h kv hkv
    omega

/-! ## Claim theorems -/

/-- C4: the context's signal and impedance fields are mutually exclusive at
every moment: the initial context satisfies the exclusion invariant and
every event write applied by the dispatcher's post-handler event writer
preserves it. -/
theorem c4_write_preserves_mutual_exclusion (ctx : Ctx) (e : InternalEvent)
    (h : mutualExclusion ctx) :
    mutualExclusion Ctx.default ∧ mutualExclusion (writeEvent ctx e) := by
  refine ⟨by simp [mutualExclusion, Ctx.default], ?_⟩
  cases e with
  | receivedCalibrationData imp => simp [writeEvent, mutualExclusion]
  | receivedGeneralistData sig => simp [writeEvent, mutualExclusion]
  | receivedPredictColorThinkingData c => simp [writeEvent, mutualExclusion]
  | otherEvent n => exact h

/-- Witness for C4 at a concrete context and event. -/
theorem c4_write_preserves_mutual_exclusion_witness :
    mutualExclusion Ctx.default ∧
      mutualExclusion (writeEvent Ctx.default (.receivedCalibrationData [("T3", 5)])) :=
  c4_write_preserves_mutual_exclusion Ctx.default
    (.receivedCalibrationData [("T3", 5)]) (by decide)

/-- C10: applying the internal prediction-result event leaves the
`headset_data` field unchanged, sets only `color_thinking`, and clears
`impedance_data`. -/
theorem c10_prediction_write_frame (ctx : Ctx) (c : String) :
    (writeEvent ctx (.receivedPredictColorThinkingData c)).headset_data = ctx.headset_data ∧
    (writeEvent ctx (.receivedPredictColorThinkingData c)).color_thinking = some c ∧
    (writeEvent ctx (.receivedPredictColorThinkingData c)).impedance_data = none := by
  simp [writeEvent]

/-- C2: after a successful calibration read, the machine stays in the
calibration state emitting `headset-calibrating` with the impedance map
iff some electrode value is greater than 1000 or less than 1, and
otherwise emits `headset-calibrated` and moves to `CapturingHeadsetData`;
values 1 and 1000 are accepted while 0 and 1001 keep it calibrating. -/
theorem c2_calibration_boundaries (data : ImpedanceData) :
    (awaiting_headset_calibration (.ok ()) (some data) =
        (.awaitingHeadsetCalibration, [.headsetCalibrating data]) ↔
      ∃ kv ∈ data, 1000 < kv.2 ∨ kv.2 < 1) ∧
    (awaiting_headset_calibration (.ok ()) (some data) =
        (.capturingHeadsetData, [.headsetCalibrated]) ↔
      ∀ kv ∈ data, 1 ≤ kv.2 ∧ kv.2 ≤ 1000) ∧
    awaiting_headset_calibration (.ok ())
        (some [("T3", 1), ("T4", 1000), ("O1", 1), ("O2", 1000)]) =
      (.capturingHeadsetData, [.headsetCalibrated]) ∧
    awaiting_headset_calibration (.ok ()) (some (("T3", 0) :: data)) =
      (.awaitingHeadsetCalibration, [.headsetCalibrating (("T3", 0) :: data)]) ∧
    awaiting_headset_calibration (.ok ()) (some (("T3", 1001) :: data)) =
      (.awaitingHeadsetCalibration, [.headsetCalibrating (("T3", 1001) :: data)]) := by
  have ht := needsMoreCalibration_eq_true_iff data
  have hf := needsMoreCalibration_eq_false_iff data
  have hzero : needsMoreCalibration (("T3", 0) :: data) = true := by
    simp [needsMoreCalibration]
  have hbig : needsMoreCalibration (("T3", 1001) :: data) = true := by
    simp [needsMoreCalibration]
  refine ⟨?_, ?_, by decide,
    by simp [awaiting_headset_calibration, hzero],
    by simp [awaiting_headset_calibration, hbig]⟩
  · by_cases h : needsMoreCalibration data = true
    · have hcomp : awaiting_headset_calibration (.ok ()) (some data) =
          (.awaitingHeadsetCalibration, [.headsetCalibrating data]) := by
        simp [awaiting_headset_calibration, h]
      rw [hcomp]
      constructor
      · intro _
        exact ht.mp h
      · intro _
        rfl
    · have hb : needsMoreCalibration data = false := by simpa using h
      have hcomp : awaiting_headset_calibration (.ok ()) (some data) =
          (.capturingHeadsetData, [.headsetCalibrated]) := by
        simp [awaiting_headset_calibration, hb]
      rw [hcomp]
      constructor
      · intro heq
        exact absurd heq (by simp)
      · intro hex
        exfalso
        obtain ⟨kv, hkv, hbad⟩ := hex
        have := hf.mp hb kv hkv
        omega
  · by_cases h : needsMoreCalibration data = true
    · have hcomp : awaiting_headset_calibration (.ok ()) (some data) =
          (.awaitingHeadsetCalibration, [.headsetCalibrating data]) := by
        simp [awaiting_headset_calibration, h]
      rw [hcomp]
      constructor
      · intro heq
        exact absurd heq (by simp)
      · intro hall
        exfalso
        obtain ⟨kv, hkv, hbad⟩ := ht.mp h
        have := hall kv hkv
        omega
    · have hb : needsMoreCalibration data = false := by simpa using h
      have hcomp : awaiting_headset_calibration (.ok ()) (some data) =
          (.capturingHeadsetData, [.headsetCalibrated]) := by
        simp [awaiting_headset_calibration, hb]
      rw [hcomp]
      constructor
      · intro _
        exact hf.mp hb
      · intro _
        rfl

/-- C5: in `CapturingHeadsetData`, a failed extraction — or a failed
prediction whose error message contains "has no data" — emits
`headset-disconnected` and moves to `AwaitingHeadsetConnection` without
commanding the bulb; any other prediction failure self-loops with no
external event and no bulb command. -/
theorem c5_capture_error_paths (raw : SignalData) (eMsg : String)
    (extract_err : String) (color : String) :
    (∀ (pr : Except String Unit) (c : String),
      capturing_headset_data (.error extract_err) raw pr c =
        { next := .awaitingHeadsetConnection
        , emitted := [.headsetDisconnected], bulbCalls := [] }) ∧
    (containsSubstr "has no data" eMsg = true →
      capturing_headset_data (.ok ()) raw (.error eMsg) color =
        { next := .awaitingHeadsetConnection
        , emitted := [.headsetDisconnected], bulbCalls := [] }) ∧
    (containsSubstr "has no data" eMsg = false →
      capturing_headset_data (.ok ()) raw (.error eMsg) color =
        { next := .capturingHeadsetData, emitted := [], bulbCalls := [] }) := by
  refine ⟨fun pr c => rfl, fun h => ?_, fun h => ?_⟩ <;>
    simp [capturing_headset_data, h]

/-- Witness for C5 at concrete error messages. -/
theorem c5_capture_error_paths_witness :
    capturing_headset_data (.ok ()) []
        (.error "Error predicting color: Channel T3 has no data") "" =
      { next := .awaitingHeadsetConnection
      , emitted := [.headsetDisconnected], bulbCalls := [] } ∧
    capturing_headset_data (.ok ()) []
        (.error "Error predicting color: bad tensor shape") "" =
      { next := .capturingHeadsetData, emitted := [], bulbCalls := [] } ∧
    capturing_headset_data (.error "Failed to get board data") [] (.ok ()) "" =
      { next := .awaitingHeadsetConnection
      , emitted := [.headsetDisconnected], bulbCalls := [] } :=
  ⟨(c5_capture_error_paths [] "Error predicting color: Channel T3 has no data"
      "Failed to get board data" "").2.1 (by decide),
   (c5_capture_error_paths [] "Error predicting color: bad tensor shape"
      "Failed to get board data" "").2.2 (by decide),
   (c5_capture_error_paths [] "" "Failed to get board data" "").1 (.ok ()) ""⟩

/-- C6: on a completed capture tick, effective label `green` makes the
last bulb command `On`, any other non-empty label makes it `Off`, and an
empty label issues no bulb command. -/
theorem c6_light_mapping (raw : SignalData) (color : String) :
    (color = "green" →
      (capturing_headset_data (.ok ()) raw (.ok ()) color).bulbCalls.getLast? =
        some .BulbOn) ∧
    (color ≠ "" → color ≠ "green" →
      (capturing_headset_data (.ok ()) raw (.ok ()) color).bulbCalls.getLast? =
        some .BulbOff) ∧
    (color = "" → (capturing_headset_data (.ok ()) raw (.ok ()) color).bulbCalls = []) := by
  refine ⟨fun h => ?_, fun h h2 => ?_, fun h => ?_⟩
  · simp [capturing_headset_data, h]
    decide
  · simp [capturing_headset_data, String.isEmpty_iff, h, h2]
  · simp [capturing_headset_data, h]
    decide

/-- Witness for C6 at the labels `green`, `unknown` and the empty label. -/
theorem c6_light_mapping_witness :
    (capturing_headset_data (.ok ()) [] (.ok ()) "green").bulbCalls.getLast? =
      some .BulbOn ∧
    (capturing_headset_data (.ok ()) [] (.ok ()) "unknown").bulbCalls.getLast? =
      some .BulbOff ∧
    (capturing_headset_data (.ok ()) [] (.ok ()) "").bulbCalls = [] :=
  ⟨(c6_light_mapping [] "green").1 rfl,
   (c6_light_mapping [] "unknown").2.1 (by decide) (by decide),
   (c6_light_mapping [] "").2.2 rfl⟩

/-- C9 counterexample: the claim classifies every value `v ≤ 2` as good,
but the code classifies `v = 1` as acceptable, not good. -/
theorem c9_thresholds_counterexample :
    ¬ (electrodeStatus 1 = "OK: Good connection") := by
  decide

/-- C9 amended: the per-electrode status is poor for `v > 2`, acceptable
for `1 ≤ v ≤ 2`, and good only for `v < 1` (that is, `v = 0`). -/
theorem c9_thresholds_amended (v : Nat) :
    (2 < v → electrodeStatus v = "ERROR: Poor connection") ∧
    (1 ≤ v → v ≤ 2 → electrodeStatus v = "WARNING: Acceptable connection") ∧
    (v < 1 → electrodeStatus v = "OK: Good connection") := by
  refine ⟨fun h => ?_, fun h1 h2 => ?_, fun h => ?_⟩
  · unfold electrodeStatus
    rw [if_pos h]
  · unfold electrodeStatus
    rw [if_neg (by omega), if_pos (by simp; omega)]
  · unfold electrodeStatus
    rw [if_neg (by omega), if_neg (by simp; omega)]

/-- Witness for C9 amended at the values 3, 1 and 0. -/
theorem c9_thresholds_amended_witness :
    electrodeStatus 3 = "ERROR: Poor connection" ∧
    electrodeStatus 1 = "WARNING: Acceptable connection" ∧
    electrodeStatus 0 = "OK: Good connection" :=
  ⟨(c9_thresholds_amended 3).1 (by decide),
   (c9_thresholds_amended 1).2.1 (by decide) (by decide),
   (c9_thresholds_amended 0).2.2 (by decide)⟩

/-- A non-empty unanimous buffer has its label as consensus. -/
theorem effectiveLabel_replicate_succ (k : ℕ) (L : String) :
    effectiveLabel (List.replicate (k + 1) L) = L := by
  rw [List.replicate_succ]
  unfold effectiveLabel
  simp [List.all_eq_true, List.mem_replicate]

/-- A buffer holding the label `L` followed somewhere by a different
label `M` has no consensus. -/
theorem effectiveLabel_mixed (L M : String) (k : ℕ) (rest : List String)
    (hM : M ≠ L) :
    effectiveLabel (List.replicate (k + 1) L ++ ([M] ++ rest)) = "unknown" := by
  have hshape : List.replicate (k + 1) L ++ ([M] ++ rest) =
      L :: (List.replicate k L ++ (M :: rest)) := by
    simp [List.replicate_succ]
  rw [hshape]
  unfold effectiveLabel
  simp [List.all_append, hM]

/-- C1: the effective label is the consensus of the bounded prediction
buffer: six pushes of `L` onto any within-capacity buffer make the
consensus `L`; a subsequent different label makes it `unknown`, and it
stays `unknown` for up to four further pushes (six identical pushes in
total are needed to leave `unknown`); a push never exceeds the capacity
`B = 6`. -/
theorem c1_consensus_buffer (L M : String) (buf s : List String)
    (hbuf : buf.length ≤ 6) (hM : M ≠ L) (hs : s.length ≤ 4) :
    effectiveLabel (pushPredictions (List.replicate 6 L) buf) = L ∧
    effectiveLabel (pushPrediction M (pushPredictions (List.replicate 6 L) buf)) =
      "unknown" ∧
    effectiveLabel (pushPredictions s
      (pushPrediction M (pushPredictions (List.replicate 6 L) buf))) = "unknown" ∧
    ∀ x, (pushPrediction x buf).length ≤ 6 := by
  have hsix : pushPredictions (List.replicate 6 L) buf = List.replicate 6 L := by
    rw [pushPredictions_eq_drop _ _ hbuf]
    have hn : buf.length + (List.replicate 6 L).length - 6 = buf.length := by
      simp
    rw [hn, List.drop_left]
  have hpm : pushPrediction M (List.replicate 6 L) = List.replicate 5 L ++ [M] := by
    simp [pushPrediction, BUFFER_CAPACITY, List.replicate_succ]
  refine ⟨?_, ?_, ?_, fun x => pushPrediction_length_le x buf hbuf⟩
  · rw [hsix]
    exact effectiveLabel_replicate_succ 5 L
  · rw [hsix, hpm]
    have := effectiveLabel_mixed L M 4 [] hM
    simpa using this
  · rw [hsix, hpm]
    rw [pushPredictions_eq_drop s _ (by simp)]
    have hamt : (List.replicate 5 L ++ [M]).length + s.length - 6 = s.length := by
      simp
    rw [hamt]
    have hsplit : (List.replicate 5 L ++ [M]) ++ s =
        List.replicate 5 L ++ ([M] ++ s) := by
      simp
    rw [hsplit, List.drop_append_eq_append_drop, List.drop_replicate]
    have h2 : s.length - (List.replicate 5 L).length = 0 := by
      simp
      omega
    rw [h2, List.drop_zero]
    have h3 : 5 - s.length = (4 - s.length) + 1 := by omega
    rw [h3]
    exact effectiveLabel_mixed L M (4 - s.length) s hM

/-- Witness for C1: six green pushes, a red push, two more pushes. -/
theorem c1_consensus_buffer_witness :
    effectiveLabel (pushPredictions (List.replicate 6 "green") []) = "green" ∧
    effectiveLabel (pushPrediction "red"
      (pushPredictions (List.replicate 6 "green") [])) = "unknown" ∧
    effectiveLabel (pushPredictions ["red", "red"]
      (pushPrediction "red" (pushPredictions (List.replicate 6 "green") []))) =
      "unknown" ∧
    ∀ x, (pushPrediction x []).length ≤ 6 :=
  c1_consensus_buffer "green" "red" [] ["red", "red"]
    (by decide) (by decide) (by decide)

/-- C7: `change_work_mode` is idempotent and transactional.  When the
underlying stop and start commands succeed, two successive calls with the
same target leave the adapter in the target mode, the second call sends
no board command, and the first sends at most one stop+start pair.  When
the stop command for the current mode fails, the transition is aborted:
the old mode is retained and only the stop command was sent.  The mock
adapter reaches the target mode without any board call. -/
theorem c7_mode_roundtrip (exec : String → Bool) (m target : WorkMode) :
    (exec (stopCommand m) = true → exec (startCommand target) = true →
      (change_work_mode exec (change_work_mode exec m target).1 target).1 = target ∧
      (change_work_mode exec (change_work_mode exec m target).1 target).2 = [] ∧
      (change_work_mode exec m target).2.length ≤ 2) ∧
    (m ≠ target → exec (stopCommand m) = false →
      change_work_mode exec m target = (m, [stopCommand m])) ∧
    mock_change_work_mode (mock_change_work_mode m target) target = target := by
  refine ⟨fun hstop hstart => ?_, fun hne hstop => ?_, ?_⟩
  · by_cases hm : m = target
    · subst hm
      simp [change_work_mode]
    · have h1 : change_work_mode exec m target = (target,
          [stopCommand m, startCommand target]) := by
        simp [change_work_mode, hm, hstop, hstart]
      rw [h1]
      simp [change_work_mode]
  · simp [change_work_mode, hne, hstop]
  · have h1 : mock_change_work_mode m target = target := by
      unfold mock_change_work_mode
      split <;> simp_all
    rw [h1]
    simp [mock_change_work_mode]

/-- Witness for C7 with an all-succeeding and an all-failing board. -/
theorem c7_mode_roundtrip_witness :
    ((change_work_mode (fun _ => true)
        (change_work_mode (fun _ => true) .Initialized .Extraction).1 .Extraction).1 =
      .Extraction) ∧
    (change_work_mode (fun _ => false) .Initialized .Extraction =
      (.Initialized, [stopCommand .Initialized])) :=
  ⟨((c7_mode_roundtrip (fun _ => true) .Initialized .Extraction).1 rfl rfl).1,
   (c7_mode_roundtrip (fun _ => false) .Initialized .Extraction).2.1
     (by decide) rfl⟩

/-- C8: before the background connect task has completed (`client = none`)
the bulb sink's `change_state` returns a typed error for a non-dummy
address; when the `TAPO_*` environment variables are absent, the dummy
placeholders are substituted and every `change_state` call short-circuits
to `Ok`. -/
theorem c8_bulb_prelogin (ip : String)
    (client : Option (BulbState → Except String Unit)) (st : BulbState) :
    (ip ≠ "127.0.0.1" → client = none →
      tapo_change_state ip client st =
        .error ("Cannot change state for Tapo device " ++ ip ++
          ": Not connected yet or connection failed.")) ∧
    tapoConfigFromEnv none none none =
      { ip_address := "127.0.0.1", username := "test_user"
      , password := "test_password" } ∧
    (∀ (cl : Option (BulbState → Except String Unit)) (s2 : BulbState),
      tapo_change_state (tapoConfigFromEnv none none none).ip_address cl s2 =
        .ok ()) := by
  refine ⟨fun hip hcl => ?_, rfl, fun cl s2 => rfl⟩
  rw [hcl]
  simp [tapo_change_state, hip]

/-- Witness for C8 at a concrete non-dummy address before connection. -/
theorem c8_bulb_prelogin_witness :
    tapo_change_state "192.168.1.50" none .BulbOn =
      .error ("Cannot change state for Tapo device 192.168.1.50" ++
        ": Not connected yet or connection failed.") ∧
    tapo_change_state (tapoConfigFromEnv none none none).ip_address none .BulbOff =
      .ok () :=
  ⟨by
    have h := (c8_bulb_prelogin "192.168.1.50" none .BulbOn).1 (by decide) rfl
    simpa using h,
   (c8_bulb_prelogin "192.168.1.50" none .BulbOff).2.2 none .BulbOff⟩

/-- C3: preprocessing succeeds on any window with the four channels
present and non-empty; it yields a flat vector of exactly `62 × 4 = 248`
values, every channel is resized to exactly 62 samples (padding by
repeating the last value when shorter, truncating to the first 62 when
longer), and the output is interleaved time-major: position `4·t + j`
holds channel `j`'s processed value at time `t`. -/
theorem c3_preprocess_shape (fsqrt : ℚ → ℚ) (eeg : String → Option (List ℚ))
    (t3 t4 o1 o2 : List ℚ)
    (hT3 : eeg "T3" = some t3) (hT4 : eeg "T4" = some t4)
    (hO1 : eeg "O1" = some o1) (hO2 : eeg "O2" = some o2)
    (nT3 : t3 ≠ []) (nT4 : t4 ≠ []) (nO1 : o1 ≠ []) (nO2 : o2 ≠ []) :
    ∃ out, preprocess_data fsqrt eeg = .ok out ∧
      out.length = 248 ∧
      (∀ xs : List ℚ, (resizeChannel xs).length = 62) ∧
      (∀ xs : List ℚ, xs.length < 62 →
        resizeChannel xs = xs ++ List.replicate (62 - xs.length) (xs.getLast?.getD 0)) ∧
      (∀ xs : List ℚ, 62 ≤ xs.length → resizeChannel xs = xs.take 62) ∧
      (∀ t j, t < 62 → j < 4 →
        out[4 * t + j]? = some
          ((([t3, t4, o1, o2].map
              (fun xs => resizeChannel (normalizeChannel fsqrt xs))).getD j []).getD t 0)) := by
  have hcheck : checkChannels eeg requiredChannels = .ok () := by
    simp [checkChannels, requiredChannels, hT3, hT4, hO1, hO2]
  have hproc : processChannels fsqrt eeg requiredChannels =
      .ok ([t3, t4, o1, o2].map (fun xs => resizeChannel (normalizeChannel fsqrt xs))) := by
    simp [processChannels, requiredChannels, hT3, hT4, hO1, hO2,
      List.isEmpty_iff, nT3, nT4, nO1, nO2]
  have hout : preprocess_data fsqrt eeg =
      .ok (interleaveChannels
        ([t3, t4, o1, o2].map (fun xs => resizeChannel (normalizeChannel fsqrt xs)))) := by
    simp [preprocess_data, hcheck, hproc]
  have hblock : ∀ i, (([t3, t4, o1, o2].map
      (fun xs => resizeChannel (normalizeChannel fsqrt xs))).map
        (fun ch => ch.getD i 0)).length = 4 := by
    intro i
    simp
  refine ⟨_, hout, ?_, resizeChannel_length, ?_, ?_, ?_⟩
  · unfold interleaveChannels
    rw [flatMap_blocks_length _ 4 hblock]
    simp [EXPECTED_SAMPLES]
  · intro xs h
    unfold resizeChannel EXPECTED_SAMPLES
    rw [if_pos h]
  · intro xs h
    unfold resizeChannel EXPECTED_SAMPLES
    rw [if_neg (by omega)]
  · intro t j ht hj
    unfold interleaveChannels
    rw [flatMap_blocks_getElem _ 4 hblock (List.range EXPECTED_SAMPLES) t j
      (by simpa [EXPECTED_SAMPLES] using ht) hj]
    have hrt : (List.range EXPECTED_SAMPLES).getD t 0 = t := by
      rw [List.getD_eq_getElem?_getD,
        List.getElem?_range (by simpa [EXPECTED_SAMPLES] using ht)]
      rfl
    rw [hrt, List.getElem?_map]
    interval_cases j <;> simp

/-- Witness for C3 on four singleton channels. -/
theorem c3_preprocess_shape_witness :
    ∃ out, preprocess_data id (fun _ => some [(1 : ℚ)]) = .ok out ∧
      out.length = 248 ∧
      (∀ xs : List ℚ, (resizeChannel xs).length = 62) ∧
      (∀ xs : List ℚ, xs.length < 62 →
        resizeChannel xs = xs ++ List.replicate (62 - xs.length) (xs.getLast?.getD 0)) ∧
      (∀ xs : List ℚ, 62 ≤ xs.length → resizeChannel xs = xs.take 62) ∧
      (∀ t j, t < 62 → j < 4 →
        out[4 * t + j]? = some
          ((([[(1 : ℚ)], [1], [1], [1]].map
              (fun xs => resizeChannel (normalizeChannel id xs))).getD j []).getD t 0)) :=
  c3_preprocess_shape id (fun _ => some [1]) [1] [1] [1] [1]
    rfl rfl rfl rfl (by decide) (by decide) (by decide) (by decide)

end NeuralAnalytics
